import Mathlib

/-!
Verification of the Shared Resource Cache and the Stateless Token
Authentication Gate of the cloneflix frontend.

The embedding covers:
* `src/src/lib/auth.ts` — the JWT authentication gate (`isAuthenticated`,
  the module-level `JWT_SECRET_BUFFER` decoding pipeline, `ALGORITHM`);
* `src/src/app/api/movies/route.ts` and
  `src/src/app/api/movies/recommendations/route.ts` — the lazily
  initialized, memoized MongoDB connection cache (`cached`,
  `connectToDatabase`) and the protected `GET` handler;
* `src/unnamed/part_001` (`lib/db.ts`) — the module-load check of the
  connection target.

Conventions: JavaScript promises are modelled by promise identifiers
(`Nat`) whose eventual outcome is given by the environment; handles and
error objects are opaque `Nat`s; the single-threaded event loop is
modelled by atomic arrival steps (the synchronous prefix of
`connectToDatabase` up to its `await`) and settle/resume steps (the
microtask batch that runs when the awaited promise settles).  The
`verify` function of the `jsonwebtoken` library is modelled over structured tokens: a
credential either fails to parse (`malformed`) or carries a header
algorithm, a payload (subject, issued-at, expiry) and a signature; the
HMAC primitive is an arbitrary function parameter.
-/

namespace Cloneflix

/-! ## Token model (`src/src/lib/auth.ts` and the jsonwebtoken library) -/

/-- JWT header algorithms that can appear in the header of a token, including
the unsigned `none` variant. -/
inductive Alg
  | HS256
  | HS384
  | HS512
  | RS256
  | noneAlg
deriving DecidableEq, Repr

/-- The decoded payload of a token: subject, issued-at, expiry
(seconds since epoch). -/
structure Claims where
  sub : String
  iat : Nat
  exp : Nat
deriving DecidableEq, Repr

/-- A structurally well-formed JWT: header algorithm, payload, and the
signature bytes carried in the third segment (opaque `Nat`). -/
structure Token where
  alg : Alg
  payload : Claims
  sig : Nat
deriving DecidableEq, Repr

/-- A credential string as handed to `jwt.verify`: either it fails JWT
structural parsing, or it parses into a `Token`. -/
inductive Credential
  | malformed
  | wellFormed (t : Token)
deriving DecidableEq, Repr

/-- The content an HMAC signature covers: header and payload
(`header.payload` in the wire format). -/
def signingInput (t : Token) : Alg × Claims := (t.alg, t.payload)

/-- Typed failures of token verification (jsonwebtoken throws
`JsonWebTokenError` for malformed / wrong algorithm / bad signature and
`TokenExpiredError` for an expired token; the embedding returns them). -/
inductive VerifyError
  | malformedToken
  | algorithmMismatch
  | signatureInvalid
  | expired
deriving DecidableEq, Repr

/-- Model of `jwt.verify(token, secret, { algorithms })`: parse the
token, require the header algorithm to be in the allow-list, check the
HMAC signature over header+payload against the secret, then check the
expiry claim against the current time.  `hmac` is the signing primitive
(HMAC-SHA256 in production), passed as a parameter. -/
def jwtVerify (hmac : List Nat → Alg × Claims → Nat) (secret : List Nat)
    (cred : Credential) (algorithms : List Alg) (now : Nat) :
    Except VerifyError Claims :=
  match cred with
  | .malformed => .error .malformedToken
  | .wellFormed t =>
    if t.alg ∈ algorithms then
      if t.sig = hmac secret (signingInput t) then
        if now < t.payload.exp then .ok t.payload
        else .error .expired
      else .error .signatureInvalid
    else .error .algorithmMismatch

/-! ## Secret material (`src/src/lib/auth.ts` lines 9–25) -/

/-- Value of a single base64 alphabet character (RFC 4648), `none` for a
character outside the alphabet. -/
def b64Val (c : Char) : Option Nat :=
  if 'A' ≤ c ∧ c ≤ 'Z' then some (c.toNat - 65)
  else if 'a' ≤ c ∧ c ≤ 'z' then some (c.toNat - 97 + 26)
  else if '0' ≤ c ∧ c ≤ '9' then some (c.toNat - 48 + 52)
  else if c = '+' then some 62
  else if c = '/' then some 63
  else none

/-- Decode a run of base64 character values (already restricted to the
alphabet) the way the Node Buffer base64 decoder does: each full group
of four values yields three bytes, a trailing group of three yields two
bytes, a trailing group of two yields one byte, and a single leftover
value yields nothing. -/
def b64Bytes : List Nat → List Nat
  | a :: b :: c :: d :: rest =>
    (a * 4 + b / 16) :: (b % 16 * 16 + c / 4) :: (c % 4 * 64 + d) :: b64Bytes rest
  | [a, b, c] => [a * 4 + b / 16, b % 16 * 16 + c / 4]
  | [a, b] => [a * 4 + b / 16]
  | _ => []

/-- Model of base64-mode `Buffer.from` on a string: Node never throws
here — decoding stops at the first `=`, skips every character outside
the base64 alphabet, accepts lengths that are not multiples of four, and
returns whatever bytes result, so a malformed string yields an empty or
partially decoded buffer rather than an error. -/
def bufferFromBase64 (s : String) : List Nat :=
  b64Bytes ((s.data.takeWhile (fun c => c ≠ '=')).filterMap b64Val)

/-- The module-level secret pipeline of auth.ts lines 14–25 under real
Node semantics: `JWT_SECRET` is read from the environment; a missing or
empty value (falsy in JavaScript) leaves the buffer `null`; otherwise
base64-mode `Buffer.from` never throws, so the `catch` arm is dead code
and even a malformed value produces a buffer — a truthy object even when
empty. -/
def JWT_SECRET_BUFFER (jwtSecretBase64 : Option String) : Option (List Nat) :=
  match jwtSecretBase64 with
  | none => none
  | some s => if s = "" then none else some (bufferFromBase64 s)

/-- The constant `ALGORITHM` (HS256) of auth.ts line 10. -/
def ALGORITHM : Alg := Alg.HS256

/-! ## The authentication gate (`src/src/lib/auth.ts` lines 35–71) -/

/-- The cookie store of an incoming `NextRequest`. -/
structure Request where
  cookies : List (String × Credential)
deriving DecidableEq, Repr

/-- Model of reading a named cookie value from the request. -/
def cookieGet (req : Request) (name : String) : Option Credential :=
  (req.cookies.find? (fun c => c.1 = name)).map (fun c => c.2)

/-- The function `isAuthenticated` of auth.ts: read the `jwt` cookie (absent
cookie → `false`); refuse when the secret buffer is `null`; otherwise
call `jwt.verify` with the single configured algorithm, mapping success
to `true` and every thrown verification error to `false`. -/
def isAuthenticated (hmac : List Nat → Alg × Claims → Nat)
    (jwtSecretBuffer : Option (List Nat)) (req : Request) (now : Nat) : Bool :=
  match cookieGet req "jwt" with
  | none => false
  | some cred =>
    match jwtSecretBuffer with
    | none => false
    | some secret =>
      match jwtVerify hmac secret cred [ALGORITHM] now with
      | .ok _ => true
      | .error _ => false

/-! ## Connection cache (`src/src/app/api/movies/route.ts` lines 7–40,
duplicated in `recommendations/route.ts` lines 8–41) -/

/-- The module-level `cached` record: a connection handle and a
connection promise, both initially `null`.  `nextPromise` is the supply
of fresh promise identifiers; it also counts how many initializations
have ever been started. -/
structure CacheState where
  conn : Option Nat
  promise : Option Nat
  nextPromise : Nat
deriving DecidableEq, Repr

/-- The cache at module load: `{ conn: null, promise: null }`. -/
def initialCache : CacheState :=
  { conn := none, promise := none, nextPromise := 0 }

/-- What a caller of `connectToDatabase` observes during the synchronous
prefix of the call (up to the `await`). -/
inductive ArrivalRes
  | returned (h : Nat)
  | threwConfig
  | awaiting (p : Nat)
deriving DecidableEq, Repr

/-- The synchronous prefix of `connectToDatabase`: return the cached
connection if present; otherwise, if no promise is cached, throw when
`MONGODB_URI` is absent or start a connection and publish its promise;
then await the cached promise. -/
def connectArrive (uri : Option String) (s : CacheState) :
    CacheState × ArrivalRes :=
  match s.conn with
  | some h => (s, .returned h)
  | none =>
    match s.promise with
    | some p => (s, .awaiting p)
    | none =>
      match uri with
      | none => (s, .threwConfig)
      | some _ =>
        ({ s with promise := some s.nextPromise,
                  nextPromise := s.nextPromise + 1 },
         .awaiting s.nextPromise)

/-- The eventual outcome of a connection promise: a resolved handle or a
rejection with an error (both opaque `Nat`s). -/
inductive Outcome
  | success (h : Nat)
  | failure (e : Nat)
deriving DecidableEq, Repr

/-- What a caller of `connectToDatabase` eventually gets: the resolved
handle, or a rethrown error. -/
inductive ConnResult
  | ok (h : Nat)
  | error (e : Nat)
deriving DecidableEq, Repr

/-- One awaiting caller resuming after the promise it awaited settles
(the `try`/`catch` around `await cached.promise`): on fulfilment it
stores the handle in `cached.conn` and returns it; on rejection it
clears `cached.promise` and rethrows. -/
def connectResume (o : Outcome) (s : CacheState) : CacheState × ConnResult :=
  match o with
  | .success h => ({ s with conn := some h }, .ok h)
  | .failure e => ({ s with promise := none }, .error e)

/-- A batch of `n` callers arriving back to back (each runs its synchronous prefix
to completion before the next, as in the single-threaded event loop). -/
def wave (uri : Option String) : Nat → CacheState → CacheState × List ArrivalRes
  | 0, s => (s, [])
  | n + 1, s =>
    ((wave uri n (connectArrive uri s).1).1,
     (connectArrive uri s).2 :: (wave uri n (connectArrive uri s).1).2)

/-- The microtask batch after the awaited promise settles: all `n`
waiting callers resume consecutively, each through `connectResume`. -/
def resumeAll (o : Outcome) : Nat → CacheState → CacheState × List ConnResult
  | 0, s => (s, [])
  | n + 1, s =>
    ((resumeAll o n (connectResume o s).1).1,
     (connectResume o s).2 :: (resumeAll o n (connectResume o s).1).2)

/-- States of the `cached` record reachable by any interleaving of
caller arrivals and promise settlements.  `uri` is the fixed process
configuration and `out` assigns each started promise its eventual
outcome.  A settle step requires the cached promise to be still
unresolved (`conn = none`): a promise settles once, and a fulfilled
promise sets `conn` in the same microtask batch. -/
inductive Reachable (uri : Option String) (out : Nat → Outcome) :
    CacheState → Prop
  | init : Reachable uri out initialCache
  | arrive (s : CacheState) : Reachable uri out s →
      Reachable uri out (connectArrive uri s).1
  | settle (s : CacheState) (p : Nat) : Reachable uri out s →
      s.promise = some p → s.conn = none →
      Reachable uri out (connectResume (out p) s).1

/-! ## The module-load check of `src/unnamed/part_001` (`lib/db.ts`):
`if (!uri) { throw new Error(...) }` at import time. -/

/-- Loading `lib/db.ts`: throws at module load when `MONGODB_URI` is
absent, before any connection is attempted. -/
def dbModuleLoad (uri : Option String) : Except String Unit :=
  match uri with
  | none => .error "Please define the MONGO_URI environment variable inside .env.local"
  | some _ => .ok ()

/-! ## The protected recommendations handler
(`src/src/app/api/movies/recommendations/route.ts` lines 77–105) -/

/-- The `GET` handler of the recommendations route, returning the final
state of its module-level cache, the HTTP status, and whether
`connectToDatabase` was invoked.  It first consults `isAuthenticated`
and answers 401 without touching the database; otherwise it connects
(modelled to resolution) and answers 200, or 500 when the `try` block
throws. -/
def recommendationsGET (hmac : List Nat → Alg × Claims → Nat)
    (jwtSecretBuffer : Option (List Nat)) (req : Request) (now : Nat)
    (uri : Option String) (o : Outcome) (s : CacheState) :
    CacheState × Nat × Bool :=
  if isAuthenticated hmac jwtSecretBuffer req now then
    match connectArrive uri s with
    | (s1, .returned _) => (s1, 200, true)
    | (s1, .threwConfig) => (s1, 500, true)
    | (s1, .awaiting _) =>
      match connectResume o s1 with
      | (s2, .ok _) => (s2, 200, true)
      | (s2, .error _) => (s2, 500, true)
  else (s, 401, false)

/-! ## Helper lemmas -/

/-- Characterization of successful `jwt.verify`: only a parsed token
whose algorithm is allow-listed, whose signature matches the HMAC of its
header and payload under the secret, and whose expiry lies in the
future, yields its claims. -/
theorem jwtVerify_ok_iff (hmac : List Nat → Alg × Claims → Nat)
    (secret : List Nat) (cred : Credential) (algorithms : List Alg)
    (now : Nat) (c : Claims) :
    jwtVerify hmac secret cred algorithms now = .ok c ↔
    ∃ t, cred = Credential.wellFormed t ∧ t.alg ∈ algorithms
      ∧ t.sig = hmac secret (signingInput t) ∧ now < t.payload.exp
      ∧ c = t.payload := by
  cases cred with
  | malformed => simp [jwtVerify]
  | wellFormed t =>
    simp only [jwtVerify]
    split_ifs with h1 h2 h3 <;>
      simp_all [eq_comm]

/-- Characterization of an accepting run of `isAuthenticated`. -/
theorem isAuthenticated_true_iff (hmac : List Nat → Alg × Claims → Nat)
    (secretBuf : Option (List Nat)) (req : Request) (now : Nat) :
    isAuthenticated hmac secretBuf req now = true ↔
    ∃ t secret, cookieGet req "jwt" = some (Credential.wellFormed t)
      ∧ secretBuf = some secret ∧ t.alg = Alg.HS256
      ∧ t.sig = hmac secret (signingInput t) ∧ now < t.payload.exp := by
  constructor
  · intro h
    unfold isAuthenticated at h
    cases hc : cookieGet req "jwt" with
    | none => simp [hc] at h
    | some cred =>
      rw [hc] at h
      cases hsb : secretBuf with
      | none => simp [hsb] at h
      | some secret =>
        rw [hsb] at h
        cases hv : jwtVerify hmac secret cred [ALGORITHM] now with
        | error e => simp [hv] at h
        | ok c =>
          rw [jwtVerify_ok_iff] at hv
          obtain ⟨t, hcred, halg, hsig, hexp, _⟩ := hv
          refine ⟨t, secret, ?_, rfl, ?_, hsig, hexp⟩
          · rw [hcred]
          · simpa [ALGORITHM] using halg
  · rintro ⟨t, secret, hc, hs, ha, hsig, hexp⟩
    have hv : jwtVerify hmac secret (Credential.wellFormed t) [ALGORITHM] now
        = .ok t.payload := by
      rw [jwtVerify_ok_iff]
      exact ⟨t, rfl, by simp [ALGORITHM, ha], hsig, hexp, rfl⟩
    unfold isAuthenticated
    rw [hc, hs]
    simp [hv]

/-- The gate `isAuthenticated` is `false` whenever the secret buffer is `null`,
for every request, time, and HMAC primitive. -/
theorem isAuthenticated_none_secret (hmac : List Nat → Alg × Claims → Nat)
    (req : Request) (now : Nat) :
    isAuthenticated hmac none req now = false := by
  unfold isAuthenticated
  cases cookieGet req "jwt" <;> rfl

/-- A cached connection is returned as-is, with no state change. -/
theorem connectArrive_conn (uri : Option String) (s : CacheState) (h : Nat)
    (hc : s.conn = some h) : connectArrive uri s = (s, ArrivalRes.returned h) := by
  unfold connectArrive
  rw [hc]

/-- With no connection but a cached promise, a caller awaits that same
promise, with no state change. -/
theorem connectArrive_pending (uri : Option String) (s : CacheState) (p : Nat)
    (hc : s.conn = none) (hp : s.promise = some p) :
    connectArrive uri s = (s, ArrivalRes.awaiting p) := by
  unfold connectArrive
  rw [hc, hp]

/-- On an empty cache with no `MONGODB_URI`, the call throws the
configuration error and leaves the cache untouched. -/
theorem connectArrive_empty_noUri (s : CacheState)
    (hc : s.conn = none) (hp : s.promise = none) :
    connectArrive none s = (s, ArrivalRes.threwConfig) := by
  unfold connectArrive
  rw [hc, hp]

/-- On an empty cache with a `MONGODB_URI`, the call starts a fresh
initialization and publishes its promise before awaiting it. -/
theorem connectArrive_empty_uri (u : String) (s : CacheState)
    (hc : s.conn = none) (hp : s.promise = none) :
    connectArrive (some u) s
      = ({ s with promise := some s.nextPromise,
                  nextPromise := s.nextPromise + 1 },
         ArrivalRes.awaiting s.nextPromise) := by
  unfold connectArrive
  rw [hc, hp]

/-- Every caller arriving at a pending cache awaits the same promise. -/
theorem wave_pending (uri : Option String) (n : Nat) (s : CacheState) (p : Nat)
    (hc : s.conn = none) (hp : s.promise = some p) :
    wave uri n s = (s, List.replicate n (ArrivalRes.awaiting p)) := by
  induction n with
  | zero => rfl
  | succ m ih =>
    simp only [wave]
    rw [connectArrive_pending uri s p hc hp, List.replicate_succ]
    simp [ih]

/-- The first caller on the empty cache starts initialization 0 and all
later callers of the wave await it: exactly one initialization. -/
theorem wave_from_empty (u : String) (m : Nat) :
    wave (some u) (m + 1) initialCache
      = (⟨none, some 0, 1⟩, List.replicate (m + 1) (ArrivalRes.awaiting 0)) := by
  have ha : connectArrive (some u) initialCache
      = (⟨none, some 0, 1⟩, ArrivalRes.awaiting 0) := rfl
  simp only [wave]
  rw [ha, wave_pending (some u) m ⟨none, some 0, 1⟩ 0 rfl rfl,
    List.replicate_succ]

/-- Resuming waiters after fulfilment when the handle is already stored
changes nothing and hands every waiter the handle. -/
theorem resumeAll_success_resolved (h : Nat) (n : Nat) (s : CacheState)
    (hc : s.conn = some h) :
    resumeAll (Outcome.success h) n s = (s, List.replicate n (ConnResult.ok h)) := by
  induction n generalizing s with
  | zero => rfl
  | succ m ih =>
    simp only [resumeAll, connectResume]
    have hs : ({ s with conn := some h } : CacheState) = s := by
      cases s
      cases hc
      rfl
    rw [hs, ih s hc, List.replicate_succ]

/-- Resuming `m + 1` waiters after fulfilment stores the handle and
hands the same handle to every waiter. -/
theorem resumeAll_success (h : Nat) (m : Nat) (s : CacheState) :
    resumeAll (Outcome.success h) (m + 1) s
      = ({ s with conn := some h }, List.replicate (m + 1) (ConnResult.ok h)) := by
  simp only [resumeAll, connectResume]
  rw [resumeAll_success_resolved h m { s with conn := some h } rfl,
    List.replicate_succ]

/-- Resuming waiters after rejection when the promise is already cleared
changes nothing and rethrows the same error to every waiter. -/
theorem resumeAll_failure_cleared (e : Nat) (n : Nat) (s : CacheState)
    (hp : s.promise = none) :
    resumeAll (Outcome.failure e) n s = (s, List.replicate n (ConnResult.error e)) := by
  induction n generalizing s with
  | zero => rfl
  | succ m ih =>
    simp only [resumeAll, connectResume]
    have hs : ({ s with promise := none } : CacheState) = s := by
      cases s
      cases hp
      rfl
    rw [hs, ih s hp, List.replicate_succ]

/-- Resuming `m + 1` waiters after rejection clears the cached promise
and rethrows the same error to every waiter. -/
theorem resumeAll_failure (e : Nat) (m : Nat) (s : CacheState) :
    resumeAll (Outcome.failure e) (m + 1) s
      = ({ s with promise := none }, List.replicate (m + 1) (ConnResult.error e)) := by
  simp only [resumeAll, connectResume]
  rw [resumeAll_failure_cleared e m { s with promise := none } rfl,
    List.replicate_succ]

/-! ## Claims about the authentication gate -/

/-- C1: `isAuthenticated` returns `true` only when a `jwt` cookie is
present, its value is a well-formed token whose header names the single
configured algorithm HS256 (in particular never the unsigned `none`
variant), whose signature is the HMAC of its header and payload under
the configured secret, and whose expiry is after the current time. -/
theorem auth_true_only_for_valid_hs256 (hmac : List Nat → Alg × Claims → Nat)
    (secretBuf : Option (List Nat)) (req : Request) (now : Nat)
    (h : isAuthenticated hmac secretBuf req now = true) :
    ∃ t secret, cookieGet req "jwt" = some (Credential.wellFormed t)
      ∧ secretBuf = some secret
      ∧ t.alg = Alg.HS256 ∧ t.alg ≠ Alg.noneAlg
      ∧ t.sig = hmac secret (signingInput t)
      ∧ now < t.payload.exp := by
  obtain ⟨t, secret, hc, hs, ha, hsig, hexp⟩ :=
    (isAuthenticated_true_iff hmac secretBuf req now).1 h
  refine ⟨t, secret, hc, hs, ha, ?_, hsig, hexp⟩
  rw [ha]
  decide

/-- Witness for C1 at a concrete accepting input. -/
theorem auth_true_only_for_valid_hs256_witness :
    ∃ t secret,
      cookieGet
        ⟨[("jwt", Credential.wellFormed
            { alg := Alg.HS256, payload := { sub := "u", iat := 0, exp := 10 },
              sig := 0 })]⟩ "jwt" = some (Credential.wellFormed t)
      ∧ (some [7, 7] : Option (List Nat)) = some secret
      ∧ t.alg = Alg.HS256 ∧ t.alg ≠ Alg.noneAlg
      ∧ t.sig = (fun (_ : List Nat) (_ : Alg × Claims) => 0) secret (signingInput t)
      ∧ 3 < t.payload.exp :=
  auth_true_only_for_valid_hs256 (fun _ _ => 0) (some [7, 7])
    ⟨[("jwt", Credential.wellFormed
        { alg := Alg.HS256, payload := { sub := "u", iat := 0, exp := 10 },
          sig := 0 })]⟩ 3 (by decide)

/-- C8: when the cookie store of the request has no cookie named `jwt`,
`isAuthenticated` evaluates to `false` (a value, not a raised error). -/
theorem auth_no_cookie_false (hmac : List Nat → Alg × Claims → Nat)
    (secretBuf : Option (List Nat)) (req : Request) (now : Nat)
    (h : cookieGet req "jwt" = none) :
    isAuthenticated hmac secretBuf req now = false := by
  unfold isAuthenticated
  rw [h]

/-- Witness for C8: a request with an unrelated cookie only. -/
theorem auth_no_cookie_false_witness :
    isAuthenticated (fun _ _ => 0) (some [7, 7])
      ⟨[("theme", Credential.malformed)]⟩ 3 = false :=
  auth_no_cookie_false (fun _ _ => 0) (some [7, 7])
    ⟨[("theme", Credential.malformed)]⟩ 3 (by decide)

/-- C3 names a code bug: the source (auth.ts line 20) documents that the
buffer is set to `null` so that validation fails when the secret is
malformed, but base64-mode `Buffer.from` never throws, so the `catch`
arm is dead code.  A malformed non-empty `JWT_SECRET` yields a truthy
empty or partially decoded buffer, the null-guard of `isAuthenticated`
does not fire, and `jwt.verify` is attempted against that key — a token
HMAC-signed with the empty key even authenticates. -/
theorem secret_partial_decode_bug :
    JWT_SECRET_BUFFER (some "!!!!") = some []
    ∧ JWT_SECRET_BUFFER (some "YW!Jj") = some [97, 98, 99]
    ∧ JWT_SECRET_BUFFER (some "YWJ") = some [97, 98]
    ∧ isAuthenticated (fun _ _ => 5) (JWT_SECRET_BUFFER (some "!!!!"))
        ⟨[("jwt", Credential.wellFormed
            { alg := Alg.HS256, payload := { sub := "u", iat := 0, exp := 10 },
              sig := 5 })]⟩ 3 = true := by
  decide

/-- C5: verification yields a typed failure value (not an uncaught
exception) for an unusable secret, a structurally malformed token, a
token under a different algorithm, a validly-signed but expired token,
and a tampered payload; and `isAuthenticated` collapses every failure
kind to the single value `false`. -/
theorem verify_fails_closed (hmac : List Nat → Alg × Claims → Nat)
    (secret : List Nat) (now : Nat) (tAlg tExp tTam : Token)
    (hAlg : tAlg.alg ≠ ALGORITHM)
    (hExpAlg : tExp.alg = ALGORITHM)
    (hExpSig : tExp.sig = hmac secret (signingInput tExp))
    (hExp : tExp.payload.exp ≤ now)
    (hTamAlg : tTam.alg = ALGORITHM)
    (hTamSig : tTam.sig ≠ hmac secret (signingInput tTam)) :
    (∀ req : Request, isAuthenticated hmac none req now = false)
    ∧ jwtVerify hmac secret Credential.malformed [ALGORITHM] now
        = .error .malformedToken
    ∧ jwtVerify hmac secret (Credential.wellFormed tAlg) [ALGORITHM] now
        = .error .algorithmMismatch
    ∧ jwtVerify hmac secret (Credential.wellFormed tExp) [ALGORITHM] now
        = .error .expired
    ∧ jwtVerify hmac secret (Credential.wellFormed tTam) [ALGORITHM] now
        = .error .signatureInvalid
    ∧ (∀ (req : Request) (cred : Credential) (e : VerifyError),
        cookieGet req "jwt" = some cred →
        jwtVerify hmac secret cred [ALGORITHM] now = .error e →
        isAuthenticated hmac (some secret) req now = false) := by
  refine ⟨fun req => isAuthenticated_none_secret hmac req now, rfl, ?_, ?_, ?_, ?_⟩
  · simp only [jwtVerify, List.mem_singleton]
    rw [if_neg hAlg]
  · simp only [jwtVerify, List.mem_singleton]
    rw [if_pos hExpAlg, if_pos hExpSig, if_neg (Nat.not_lt.mpr hExp)]
  · simp only [jwtVerify, List.mem_singleton]
    rw [if_pos hTamAlg, if_neg hTamSig]
  · intro req cred e hc hv
    unfold isAuthenticated
    rw [hc]
    simp [hv]

/-- Witness for C5 at concrete inputs: a constant-zero HMAC, a token
under the unsigned `none` algorithm, an expired well-signed token, and a
token with a non-matching signature. -/
theorem verify_fails_closed_witness :
    (∀ req : Request,
      isAuthenticated (fun _ _ => 0) none req 100 = false)
    ∧ jwtVerify (fun _ _ => 0) [1] Credential.malformed [ALGORITHM] 100
        = .error .malformedToken
    ∧ jwtVerify (fun _ _ => 0) [1]
        (Credential.wellFormed
          { alg := Alg.noneAlg, payload := { sub := "u", iat := 0, exp := 200 },
            sig := 0 }) [ALGORITHM] 100 = .error .algorithmMismatch
    ∧ jwtVerify (fun _ _ => 0) [1]
        (Credential.wellFormed
          { alg := Alg.HS256, payload := { sub := "u", iat := 0, exp := 50 },
            sig := 0 }) [ALGORITHM] 100 = .error .expired
    ∧ jwtVerify (fun _ _ => 0) [1]
        (Credential.wellFormed
          { alg := Alg.HS256, payload := { sub := "u", iat := 0, exp := 200 },
            sig := 1 }) [ALGORITHM] 100 = .error .signatureInvalid
    ∧ (∀ (req : Request) (cred : Credential) (e : VerifyError),
        cookieGet req "jwt" = some cred →
        jwtVerify (fun _ _ => 0) [1] cred [ALGORITHM] 100 = .error e →
        isAuthenticated (fun _ _ => 0) (some [1]) req 100 = false) :=
  verify_fails_closed (fun _ _ => 0) [1] 100
    { alg := Alg.noneAlg, payload := { sub := "u", iat := 0, exp := 200 }, sig := 0 }
    { alg := Alg.HS256, payload := { sub := "u", iat := 0, exp := 50 }, sig := 0 }
    { alg := Alg.HS256, payload := { sub := "u", iat := 0, exp := 200 }, sig := 1 }
    (by decide) (by decide) (by decide) (by decide) (by decide) (by decide)

/-! ## Claims about the connection cache -/

/-- C2: for `n ≥ 1` callers arriving on the empty cache before the first
resolution, exactly one initialization is started (the counter of
started initializations ends at 1), the in-flight promise is published
before any caller awaits so every caller awaits promise 0, and on
settlement all callers receive the same handle, or all receive the same
failure and the cache is empty afterwards. -/
theorem cache_single_flight (n : Nat) (hn : 0 < n) (u : String) (o : Outcome) :
    ((wave (some u) n initialCache).1.nextPromise = 1
      ∧ (wave (some u) n initialCache).2
          = List.replicate n (ArrivalRes.awaiting 0))
    ∧ (∀ h : Nat, o = Outcome.success h →
        (resumeAll o n (wave (some u) n initialCache).1).2
          = List.replicate n (ConnResult.ok h))
    ∧ (∀ e : Nat, o = Outcome.failure e →
        (resumeAll o n (wave (some u) n initialCache).1).2
          = List.replicate n (ConnResult.error e)
        ∧ (resumeAll o n (wave (some u) n initialCache).1).1.conn = none
        ∧ (resumeAll o n (wave (some u) n initialCache).1).1.promise = none) := by
  obtain ⟨m, rfl⟩ : ∃ m, n = m + 1 :=
    ⟨n - 1, (Nat.succ_pred_eq_of_pos hn).symm⟩
  rw [wave_from_empty u m]
  refine ⟨⟨rfl, rfl⟩, ?_, ?_⟩
  · rintro h rfl
    rw [resumeAll_success h m ⟨none, some 0, 1⟩]
  · rintro e rfl
    rw [resumeAll_failure e m ⟨none, some 0, 1⟩]
    exact ⟨rfl, rfl, rfl⟩

/-- Witness for C2 with three concurrent callers and a successful
connection. -/
theorem cache_single_flight_witness :
    (((wave (some "mongodb://db") 3 initialCache).1.nextPromise = 1
      ∧ (wave (some "mongodb://db") 3 initialCache).2
          = List.replicate 3 (ArrivalRes.awaiting 0))
    ∧ (∀ h : Nat, Outcome.success 7 = Outcome.success h →
        (resumeAll (Outcome.success 7) 3 (wave (some "mongodb://db") 3 initialCache).1).2
          = List.replicate 3 (ConnResult.ok h))
    ∧ (∀ e : Nat, Outcome.success 7 = Outcome.failure e →
        (resumeAll (Outcome.success 7) 3 (wave (some "mongodb://db") 3 initialCache).1).2
          = List.replicate 3 (ConnResult.error e)
        ∧ (resumeAll (Outcome.success 7) 3 (wave (some "mongodb://db") 3 initialCache).1).1.conn = none
        ∧ (resumeAll (Outcome.success 7) 3 (wave (some "mongodb://db") 3 initialCache).1).1.promise = none)) :=
  cache_single_flight 3 (by decide) "mongodb://db" (Outcome.success 7)

/-- C4: when the initialization fails, the cached promise is cleared,
every caller that awaited the attempt receives the failure, and the next
call starts a fresh initialization (a new promise, id 1, distinct from
the failed attempt 0) instead of returning a cached failure. -/
theorem cache_failure_clears_and_retries (n : Nat) (hn : 0 < n) (u : String)
    (e : Nat) :
    (resumeAll (Outcome.failure e) n (wave (some u) n initialCache).1).1.promise
        = none
    ∧ (resumeAll (Outcome.failure e) n (wave (some u) n initialCache).1).1.conn
        = none
    ∧ (resumeAll (Outcome.failure e) n (wave (some u) n initialCache).1).2
        = List.replicate n (ConnResult.error e)
    ∧ connectArrive (some u)
        (resumeAll (Outcome.failure e) n (wave (some u) n initialCache).1).1
        = (⟨none, some 1, 2⟩, ArrivalRes.awaiting 1) := by
  obtain ⟨m, rfl⟩ : ∃ m, n = m + 1 :=
    ⟨n - 1, (Nat.succ_pred_eq_of_pos hn).symm⟩
  rw [wave_from_empty u m, resumeAll_failure e m ⟨none, some 0, 1⟩]
  exact ⟨rfl, rfl, rfl, rfl⟩

/-- Witness for C4 with two waiting callers. -/
theorem cache_failure_clears_and_retries_witness :
    ((resumeAll (Outcome.failure 9) 2 (wave (some "mongodb://db") 2 initialCache).1).1.promise
        = none
    ∧ (resumeAll (Outcome.failure 9) 2 (wave (some "mongodb://db") 2 initialCache).1).1.conn
        = none
    ∧ (resumeAll (Outcome.failure 9) 2 (wave (some "mongodb://db") 2 initialCache).1).2
        = List.replicate 2 (ConnResult.error 9)
    ∧ connectArrive (some "mongodb://db")
        (resumeAll (Outcome.failure 9) 2 (wave (some "mongodb://db") 2 initialCache).1).1
        = (⟨none, some 1, 2⟩, ArrivalRes.awaiting 1)) :=
  cache_failure_clears_and_retries 2 (by decide) "mongodb://db" 9

/-- The cached handle, when present in a reachable state, is exactly the
handle the cached promise resolved with. -/
theorem cache_conn_provenance (uri : Option String) (out : Nat → Outcome)
    (s : CacheState) (hr : Reachable uri out s) :
    ∀ h : Nat, s.conn = some h →
      ∃ p, s.promise = some p ∧ out p = Outcome.success h := by
  induction hr with
  | init =>
    intro h hc
    cases hc
  | arrive s hr ih =>
    intro h hc
    rcases hcs : s.conn with _ | h0
    · rcases hps : s.promise with _ | p
      · cases uri with
        | none =>
          rw [connectArrive_empty_noUri s hcs hps] at hc ⊢
          exact ih h hc
        | some u =>
          rw [connectArrive_empty_uri u s hcs hps] at hc
          simp [hcs] at hc
      · rw [connectArrive_pending uri s p hcs hps] at hc ⊢
        exact ih h hc
    · rw [connectArrive_conn uri s h0 hcs] at hc ⊢
      exact ih h hc
  | settle s p hr hp hc ih =>
    intro h hcc
    cases ho : out p with
    | success h0 =>
      rw [ho] at hcc
      simp [connectResume] at hcc
      exact ⟨p, hp, by rw [ho, hcc]⟩
    | failure e =>
      rw [ho] at hcc
      simp [connectResume, hc] at hcc

/-- C6 as stated is false: the claim asserts the pending initialization
and the handle are never both absent and never both present, but the
cache reaches a state with both fields `null` (after a failed attempt,
and already at module load) and a state with both fields populated
(after a successful attempt, since the resolved promise is retained). -/
theorem cache_exclusivity_counterexample :
    (Reachable (some "mongodb://db") (fun _ => Outcome.failure 3)
        ⟨none, none, 1⟩
      ∧ (⟨none, none, 1⟩ : CacheState).conn = none
      ∧ (⟨none, none, 1⟩ : CacheState).promise = none)
    ∧ (Reachable (some "mongodb://db") (fun _ => Outcome.success 7)
        ⟨some 7, some 0, 1⟩
      ∧ (⟨some 7, some 0, 1⟩ : CacheState).conn = some 7
      ∧ (⟨some 7, some 0, 1⟩ : CacheState).promise = some 0) := by
  constructor
  · refine ⟨?_, rfl, rfl⟩
    exact Reachable.settle _ 0 (Reachable.arrive _ Reachable.init) rfl rfl
  · refine ⟨?_, rfl, rfl⟩
    exact Reachable.settle _ 0 (Reachable.arrive _ Reachable.init) rfl rfl

/-- C6 amended: in every reachable state the cache holds at most one
handle and at most one promise (one field each), and its shape is one of
exactly three: empty (both absent), pending (promise only), or resolved
(handle present with the settled promise retained) — so a handle is
never present without the promise, but both-absent and both-present do
occur. -/
theorem cache_shape_invariant (uri : Option String) (out : Nat → Outcome)
    (s : CacheState) (hr : Reachable uri out s) :
    (s.conn = none ∧ s.promise = none)
    ∨ (s.conn = none ∧ ∃ p, s.promise = some p)
    ∨ (∃ h p, s.conn = some h ∧ s.promise = some p) := by
  induction hr with
  | init => exact Or.inl ⟨rfl, rfl⟩
  | arrive s hr ih =>
    rcases ih with ⟨hc, hp⟩ | ⟨hc, p, hp⟩ | ⟨h, p, hc, hp⟩
    · cases uri with
      | none =>
        rw [connectArrive_empty_noUri s hc hp]
        exact Or.inl ⟨hc, hp⟩
      | some u =>
        rw [connectArrive_empty_uri u s hc hp]
        exact Or.inr (Or.inl ⟨hc, s.nextPromise, rfl⟩)
    · rw [connectArrive_pending uri s p hc hp]
      exact Or.inr (Or.inl ⟨hc, p, hp⟩)
    · rw [connectArrive_conn uri s h hc]
      exact Or.inr (Or.inr ⟨h, p, hc, hp⟩)
  | settle s p hr hp hc ih =>
    cases ho : out p with
    | success h =>
      exact Or.inr (Or.inr ⟨h, p, rfl, hp⟩)
    | failure e =>
      exact Or.inl ⟨hc, rfl⟩

/-- Witness for the amended C6 at a reachable resolved state. -/
theorem cache_shape_invariant_witness :
    ((⟨some 7, some 0, 1⟩ : CacheState).conn = none
      ∧ (⟨some 7, some 0, 1⟩ : CacheState).promise = none)
    ∨ ((⟨some 7, some 0, 1⟩ : CacheState).conn = none
      ∧ ∃ p, (⟨some 7, some 0, 1⟩ : CacheState).promise = some p)
    ∨ (∃ h p, (⟨some 7, some 0, 1⟩ : CacheState).conn = some h
      ∧ (⟨some 7, some 0, 1⟩ : CacheState).promise = some p) :=
  cache_shape_invariant (some "mongodb://db") (fun _ => Outcome.success 7)
    ⟨some 7, some 0, 1⟩
    (Reachable.settle _ 0 (Reachable.arrive _ Reachable.init) rfl rfl)

/-- C7: in any reachable state holding a resolved handle, a further call
returns immediately with that identical handle, changes nothing (in
particular starts no second initialization), and the handle is the one
the cached promise — the successful initialization — resolved with. -/
theorem cache_idempotent_after_resolution (uri : Option String)
    (out : Nat → Outcome) (s : CacheState) (h : Nat)
    (hr : Reachable uri out s) (hc : s.conn = some h) :
    connectArrive uri s = (s, ArrivalRes.returned h)
    ∧ ∃ p, s.promise = some p ∧ out p = Outcome.success h :=
  ⟨connectArrive_conn uri s h hc, cache_conn_provenance uri out s hr h hc⟩

/-- Witness for C7 at a reachable resolved state. -/
theorem cache_idempotent_after_resolution_witness :
    connectArrive (some "mongodb://db") ⟨some 7, some 0, 1⟩
      = (⟨some 7, some 0, 1⟩, ArrivalRes.returned 7)
    ∧ ∃ p, (⟨some 7, some 0, 1⟩ : CacheState).promise = some p
        ∧ (fun _ => Outcome.success 7) p = Outcome.success 7 :=
  cache_idempotent_after_resolution (some "mongodb://db")
    (fun _ => Outcome.success 7) ⟨some 7, some 0, 1⟩ 7
    (Reachable.settle _ 0 (Reachable.arrive _ Reachable.init) rfl rfl) rfl

/-- C9: an absent `MONGODB_URI` is a configuration error distinct from a
transient connection failure: the `lib/db.ts` variant throws already at
module load, and `connectToDatabase` on an idle cache throws the
configuration error before any connection attempt — the state is
unchanged and no pending initialization is created — whereas with a
configured target an initialization is started (and, per the failure
path, remains retryable). -/
theorem missing_uri_fatal (s : CacheState)
    (hc : s.conn = none) (hp : s.promise = none) :
    dbModuleLoad none
        = .error "Please define the MONGO_URI environment variable inside .env.local"
    ∧ connectArrive none s = (s, ArrivalRes.threwConfig)
    ∧ ∀ u : String, connectArrive (some u) s
        = ({ s with promise := some s.nextPromise,
                    nextPromise := s.nextPromise + 1 },
           ArrivalRes.awaiting s.nextPromise) :=
  ⟨rfl, connectArrive_empty_noUri s hc hp,
    fun u => connectArrive_empty_uri u s hc hp⟩

/-- Witness for C9 at the module-load cache state. -/
theorem missing_uri_fatal_witness :
    dbModuleLoad none
        = .error "Please define the MONGO_URI environment variable inside .env.local"
    ∧ connectArrive none initialCache = (initialCache, ArrivalRes.threwConfig)
    ∧ ∀ u : String, connectArrive (some u) initialCache
        = ({ initialCache with
                promise := some initialCache.nextPromise,
                nextPromise := initialCache.nextPromise + 1 },
           ArrivalRes.awaiting initialCache.nextPromise) :=
  missing_uri_fatal initialCache rfl rfl

/-- C10: when `isAuthenticated` is `false`, the recommendations `GET`
handler answers a generic 401, never invokes `connectToDatabase`, and
leaves the connection cache exactly as it was. -/
theorem unauthorized_request_skips_db (hmac : List Nat → Alg × Claims → Nat)
    (secretBuf : Option (List Nat)) (req : Request) (now : Nat)
    (h : isAuthenticated hmac secretBuf req now = false)
    (uri : Option String) (o : Outcome) (s : CacheState) :
    recommendationsGET hmac secretBuf req now uri o s = (s, 401, false) := by
  unfold recommendationsGET
  rw [h]
  rfl

/-- Witness for C10: a request with no cookies against a live cache. -/
theorem unauthorized_request_skips_db_witness :
    recommendationsGET (fun _ _ => 0) none ⟨[]⟩ 0 (some "mongodb://db")
        (Outcome.success 7) initialCache = (initialCache, 401, false) :=
  unauthorized_request_skips_db (fun _ _ => 0) none ⟨[]⟩ 0 rfl
    (some "mongodb://db") (Outcome.success 7) initialCache

end Cloneflix
